import Mathlib

/-!
Shallow embedding of the data-access layer of the student management system
(`src/models.py` and `src/database_setup.py`).

The store is SQLite reached through Python's `sqlite3` module.  Two facts of
that stack shape the embedding:

* `UNIQUE` and `NOT NULL` constraints are always enforced, so the unique
  department name and the unique (student_id, formation_id) pair are checked
  on every write;
* `FOREIGN KEY` constraints are NOT enforced unless the connection issues
  `PRAGMA foreign_keys = ON`, which the code never does, so the declared
  foreign keys on formations, subjects and enrollments are inert at runtime:
  an INSERT with a dangling reference succeeds.

Machine integers do not overflow in relevant ranges (SQLite integers are
64-bit and the ids are small), so ids are `Nat` and the other integer columns
are `Int`.  A repository call that can raise `ValueError` returns
`Except String`, the string being the ValueError message.
-/

namespace SMS

/-- A row of the `departments` table: `department_id INTEGER PRIMARY KEY
AUTOINCREMENT, name TEXT UNIQUE NOT NULL`. -/
structure DeptRow where
  department_id : Nat
  name : String
deriving Repr, DecidableEq

/-- A row of the `formations` table. -/
structure FormRow where
  formation_id : Nat
  name : String
  duration_years : Int
  department_id : Nat
deriving Repr, DecidableEq

/-- A row of the `students` table; `student_id` is the caller-supplied
TEXT primary key. -/
structure StudentRow where
  student_id : String
  first_name : String
  last_name : String
deriving Repr, DecidableEq

/-- A row of the `subjects` table. -/
structure SubjectRow where
  subject_id : Nat
  name : String
  credits : Int
  year : Int
  formation_id : Nat
deriving Repr, DecidableEq

/-- A row of the `enrollments` table, subject to
`UNIQUE(student_id, formation_id)`. -/
structure EnrollRow where
  enrollment_id : Nat
  student_id : String
  formation_id : Nat
  enrollment_year : Int
deriving Repr, DecidableEq

/-- The whole store: the five tables the repositories touch, plus one
AUTOINCREMENT counter per surrogate-key table (SQLite's AUTOINCREMENT never
reuses an id, which a monotone counter models exactly).  The `grades` table
is declared in the schema but no repository reads or writes it, so it has no
rows to model. -/
structure DB where
  departments : List DeptRow
  formations : List FormRow
  students : List StudentRow
  subjects : List SubjectRow
  enrollments : List EnrollRow
  nextDeptId : Nat
  nextFormId : Nat
  nextSubjId : Nat
  nextEnrId : Nat
deriving Repr, DecidableEq

/-- The store right after `initialize_database` on a fresh file: empty
tables, AUTOINCREMENT counters at 1. -/
def DB.empty : DB :=
  { departments := [], formations := [], students := [], subjects := [],
    enrollments := [], nextDeptId := 1, nextFormId := 1, nextSubjId := 1,
    nextEnrId := 1 }

/-- A small concrete store with one row per table, used to evaluate the
repository operations at concrete inputs. -/
def dbW : DB :=
  { departments := [⟨1, "Math"⟩], formations := [⟨1, "Algebra", 3, 1⟩],
    students := [⟨"S1", "John", "Doe"⟩], subjects := [⟨1, "Logic", 5, 1, 1⟩],
    enrollments := [⟨1, "S1", 1, 2023⟩], nextDeptId := 2, nextFormId := 2,
    nextSubjId := 2, nextEnrId := 2 }

/-- Store after step 1 of the end-to-end scenario (Department "Computer
Science" saved on the empty store). -/
def dbS1 : DB := { DB.empty with departments := [⟨1, "Computer Science"⟩], nextDeptId := 2 }

/-- Store after step 2 (Formation "Software Engineering", duration 4, under
department 1). -/
def dbS2 : DB := { dbS1 with formations := [⟨1, "Software Engineering", 4, 1⟩], nextFormId := 2 }

/-- Store after step 3 (Student "S1001"/"John"/"Doe"). -/
def dbS3 : DB := { dbS2 with students := [⟨"S1001", "John", "Doe"⟩] }

/-- Store after step 4 (Enrollment("S1001", 1, 2023)). -/
def dbS4 : DB := { dbS3 with enrollments := [⟨1, "S1001", 1, 2023⟩], nextEnrId := 2 }

/-- In-memory `Department` object (`__init__(self, name, department_id=None)`). -/
structure Department where
  name : String
  department_id : Option Nat
deriving Repr, DecidableEq

/-- In-memory `Formation` object. -/
structure Formation where
  name : String
  duration_years : Int
  department_id : Nat
  formation_id : Option Nat
deriving Repr, DecidableEq

/-- In-memory `Student` object; its id is caller-supplied, never generated. -/
structure Student where
  student_id : String
  first_name : String
  last_name : String
deriving Repr, DecidableEq

/-- In-memory `Subject` object. -/
structure Subject where
  name : String
  credits : Int
  year : Int
  formation_id : Nat
  subject_id : Option Nat
deriving Repr, DecidableEq

/-- In-memory `Enrollment` object. -/
structure Enrollment where
  student_id : String
  formation_id : Nat
  enrollment_year : Int
  enrollment_id : Option Nat
deriving Repr, DecidableEq

/-- `Department.save`: INSERT when `department_id` is `None` (the UNIQUE
constraint on `name` turns a duplicate into `sqlite3.IntegrityError`, which
the method converts to `ValueError`), else UPDATE by id.  The UPDATE violates
the UNIQUE constraint only when it actually rewrites a row (the id matches)
to a name held by a different row. -/
def Department.save (self : Department) (db : DB) : Except String (Department × DB) :=
  match self.department_id with
  | none =>
      if db.departments.any (fun r => r.name == self.name) then
        Except.error ("Department with name \x27" ++ self.name ++ "\x27 already exists.")
      else
        let newId := db.nextDeptId
        Except.ok ({ self with department_id := some newId },
          { db with departments := db.departments ++ [⟨newId, self.name⟩],
                    nextDeptId := newId + 1 })
  | some did =>
      if db.departments.any (fun r => r.department_id == did) &&
         db.departments.any (fun r => !(r.department_id == did) && r.name == self.name) then
        Except.error ("Department with name \x27" ++ self.name ++ "\x27 already exists.")
      else
        let updated := db.departments.map
          (fun r => if r.department_id == did then { r with name := self.name } else r)
        Except.ok (self, { db with departments := updated })

/-- `Department.delete`: `DELETE FROM departments WHERE department_id = ?`.
A missing id matches zero rows; SQLite raises nothing. -/
def Department.delete (did : Nat) (db : DB) : DB :=
  { db with departments := db.departments.filter (fun r => !(r.department_id == did)) }

/-- `Department.get_all`: full-table scan in store order. -/
def Department.get_all (db : DB) : List Department :=
  db.departments.map (fun r => { name := r.name, department_id := some r.department_id })

/-- `Formation.save`: INSERT when `formation_id` is `None`, else UPDATE of
all non-key columns by id.  The declared foreign key on `department_id` is
not enforced (no `PRAGMA foreign_keys = ON` anywhere in the code), and
`formations` carries no UNIQUE constraint, so with non-null fields neither
branch can raise `sqlite3.IntegrityError`: the `except` clause converting it
to `ValueError` is dead at runtime. -/
def Formation.save (self : Formation) (db : DB) : Except String (Formation × DB) :=
  match self.formation_id with
  | none =>
      let newId := db.nextFormId
      let inserted := db.formations ++ [⟨newId, self.name, self.duration_years, self.department_id⟩]
      Except.ok ({ self with formation_id := some newId },
        { db with formations := inserted, nextFormId := newId + 1 })
  | some fid =>
      let updated := db.formations.map
        (fun r => if r.formation_id == fid then
            { r with name := self.name, duration_years := self.duration_years,
                     department_id := self.department_id }
          else r)
      Except.ok (self, { db with formations := updated })

/-- `Formation.delete`. -/
def Formation.delete (fid : Nat) (db : DB) : DB :=
  { db with formations := db.formations.filter (fun r => !(r.formation_id == fid)) }

/-- `Formation.get_all`. -/
def Formation.get_all (db : DB) : List Formation :=
  db.formations.map (fun r => { name := r.name, duration_years := r.duration_years,
                                department_id := r.department_id,
                                formation_id := some r.formation_id })

/-- `Student.save`: the upsert-by-probe of the source — SELECT the row with
this caller-supplied id first; UPDATE the name columns if it exists,
otherwise INSERT.  With the probe done and all fields non-null, no integrity
constraint can fire. -/
def Student.save (self : Student) (db : DB) : Except String (Student × DB) :=
  if db.students.any (fun r => r.student_id == self.student_id) then
    let updated := db.students.map
      (fun r => if r.student_id == self.student_id then
          { r with first_name := self.first_name, last_name := self.last_name }
        else r)
    Except.ok (self, { db with students := updated })
  else
    let inserted := db.students ++ [⟨self.student_id, self.first_name, self.last_name⟩]
    Except.ok (self, { db with students := inserted })

/-- `Student.delete`. -/
def Student.delete (sid : String) (db : DB) : DB :=
  { db with students := db.students.filter (fun r => !(r.student_id == sid)) }

/-- `Student.get_all`. -/
def Student.get_all (db : DB) : List Student :=
  db.students.map (fun r => { student_id := r.student_id, first_name := r.first_name,
                              last_name := r.last_name })

/-- `Subject.save`: INSERT when `subject_id` is `None`, else UPDATE by id.
As for `Formation.save`, the foreign key on `formation_id` is unenforced and
there is no UNIQUE constraint, so no integrity error can fire. -/
def Subject.save (self : Subject) (db : DB) : Except String (Subject × DB) :=
  match self.subject_id with
  | none =>
      let newId := db.nextSubjId
      let inserted := db.subjects ++ [⟨newId, self.name, self.credits, self.year, self.formation_id⟩]
      Except.ok ({ self with subject_id := some newId },
        { db with subjects := inserted, nextSubjId := newId + 1 })
  | some sid =>
      let updated := db.subjects.map
        (fun r => if r.subject_id == sid then
            { r with name := self.name, credits := self.credits, year := self.year,
                     formation_id := self.formation_id }
          else r)
      Except.ok (self, { db with subjects := updated })

/-- `Subject.delete`. -/
def Subject.delete (sid : Nat) (db : DB) : DB :=
  { db with subjects := db.subjects.filter (fun r => !(r.subject_id == sid)) }

/-- `Subject.get_all`. -/
def Subject.get_all (db : DB) : List Subject :=
  db.subjects.map (fun r => { name := r.name, credits := r.credits, year := r.year,
                              formation_id := r.formation_id, subject_id := some r.subject_id })

/-- `Enrollment.save`: on INSERT the code itself probes for an existing
(student_id, formation_id) pair and raises `ValueError` naming both, before
the UNIQUE constraint would; on UPDATE only `enrollment_year` is written
(`UPDATE enrollments SET enrollment_year = ? WHERE enrollment_id = ?`), so
the stored identity columns are untouched whatever the in-memory object
carries, and no constraint can fire. -/
def Enrollment.save (self : Enrollment) (db : DB) : Except String (Enrollment × DB) :=
  match self.enrollment_id with
  | none =>
      if db.enrollments.any
          (fun r => r.student_id == self.student_id && r.formation_id == self.formation_id) then
        Except.error ("Student " ++ self.student_id ++ " is already enrolled in formation "
          ++ toString self.formation_id ++ ".")
      else
        let newId := db.nextEnrId
        let inserted := db.enrollments ++
          [⟨newId, self.student_id, self.formation_id, self.enrollment_year⟩]
        Except.ok ({ self with enrollment_id := some newId },
          { db with enrollments := inserted, nextEnrId := newId + 1 })
  | some eid =>
      let updated := db.enrollments.map
        (fun r => if r.enrollment_id == eid then
            { r with enrollment_year := self.enrollment_year }
          else r)
      Except.ok (self, { db with enrollments := updated })

/-- `Enrollment.delete`. -/
def Enrollment.delete (eid : Nat) (db : DB) : DB :=
  { db with enrollments := db.enrollments.filter (fun r => !(r.enrollment_id == eid)) }

/-- `Enrollment.get_all`. -/
def Enrollment.get_all (db : DB) : List Enrollment :=
  db.enrollments.map (fun r => { student_id := r.student_id, formation_id := r.formation_id,
                                 enrollment_year := r.enrollment_year,
                                 enrollment_id := some r.enrollment_id })

/-- `Enrollment.get_by_student_and_formation`: `fetchone` on the equality
filter, i.e. the first matching row in store order. -/
def Enrollment.get_by_student_and_formation (sid : String) (fid : Nat) (db : DB) :
    Option Enrollment :=
  match db.enrollments.find? (fun r => r.student_id == sid && r.formation_id == fid) with
  | some r => some { student_id := r.student_id, formation_id := r.formation_id,
                     enrollment_year := r.enrollment_year, enrollment_id := some r.enrollment_id }
  | none => none

/-! ### Schema initializer (`database_setup.initialize_database`) -/

/-- The on-disk situation `initialize_database` acts on: whether the `data`
directory exists, which of the six tables exist, and the rows already stored.
`CREATE TABLE IF NOT EXISTS` never drops rows, so the rows live beside the
flags. -/
structure SchemaState where
  dataDirExists : Bool
  departmentsTable : Bool
  formationsTable : Bool
  studentsTable : Bool
  subjectsTable : Bool
  enrollmentsTable : Bool
  gradesTable : Bool
  rows : DB
deriving Repr, DecidableEq

/-- `initialize_database`: `os.makedirs(db_dir, exist_ok=True)` then six
`CREATE TABLE IF NOT EXISTS` statements, commit, close.  Creating a table
that exists is a no-op; creating a missing one makes it (empty — it had no
rows).  The Python function body ends without `return`, i.e. it returns
`None`: modelled as a pure state transformer with no result channel. -/
def initialize_database (s : SchemaState) : SchemaState :=
  { s with dataDirExists := true, departmentsTable := true, formationsTable := true,
           studentsTable := true, subjectsTable := true, enrollmentsTable := true,
           gradesTable := true }

/-! ### Connection lifecycle instrumentation

Each repository call opens one `sqlite3` connection and is supposed to close
it.  To check the close-on-every-exit-path claim, each operation is replayed
with an explicit fault for the underlying `cursor.execute` call: `none`
means the statement runs normally, `some e` means it raises `e`.  The trace
records the Python-level outcome and whether `conn.close()` ran before the
call returned or propagated. -/

/-- A pointwise-fixed map leaves a list unchanged. -/
theorem map_fix_eq_self {α : Type} (l : List α) (f : α → α) (h : ∀ a ∈ l, f a = a) :
    l.map f = l := by
  induction l with
  | nil => rfl
  | cons a t ih =>
      simp only [List.map_cons, h a (List.mem_cons_self a t)]
      exact congrArg (List.cons a) (ih (fun b hb => h b (List.mem_cons_of_mem a hb)))

/-- C1: in any store already holding an enrollment with pair (s, f), saving a
new `Enrollment` (enrollment_id unset) with student_id = s and
formation_id = f fails with the ValueError naming the duplicate
student/formation relationship; and saving any existing enrollment again with
its own identity (only `enrollment_year` possibly changed) succeeds without a
uniqueness error. -/
theorem enrollment_save_duplicate_pair (db : DB) (s : String) (f : Nat) (y y2 : Int)
    (hex : ∃ r ∈ db.enrollments, r.student_id = s ∧ r.formation_id = f) :
    Enrollment.save { student_id := s, formation_id := f, enrollment_year := y2,
                      enrollment_id := none } db
      = Except.error ("Student " ++ s ++ " is already enrolled in formation "
          ++ toString f ++ ".")
    ∧ ∀ r ∈ db.enrollments,
        ∃ p, Enrollment.save { student_id := r.student_id, formation_id := r.formation_id,
                               enrollment_year := y, enrollment_id := some r.enrollment_id } db
          = Except.ok p := by
  constructor
  · obtain ⟨r, hr, hs, hf⟩ := hex
    have hany : db.enrollments.any (fun q => q.student_id == s && q.formation_id == f) = true := by
      refine List.any_eq_true.mpr ⟨r, hr, ?_⟩
      simp [hs, hf]
    simp [Enrollment.save, hany]
  · intro r _
    exact ⟨_, rfl⟩

/-- C1 witness: a concrete store with the pair ("S1", 7) enrolled. -/
theorem enrollment_save_duplicate_pair_witness :
    Enrollment.save { student_id := "S1", formation_id := 7, enrollment_year := 2024,
                      enrollment_id := none }
        { DB.empty with enrollments := [⟨1, "S1", 7, 2023⟩], nextEnrId := 2 }
      = Except.error ("Student " ++ "S1" ++ " is already enrolled in formation "
          ++ toString 7 ++ ".")
    ∧ ∀ r ∈ ({ DB.empty with enrollments := [⟨1, "S1", 7, 2023⟩], nextEnrId := 2 } : DB).enrollments,
        ∃ p, Enrollment.save { student_id := r.student_id, formation_id := r.formation_id,
                               enrollment_year := 2025, enrollment_id := some r.enrollment_id }
               { DB.empty with enrollments := [⟨1, "S1", 7, 2023⟩], nextEnrId := 2 }
          = Except.ok p :=
  enrollment_save_duplicate_pair _ "S1" 7 2025 2024 ⟨⟨1, "S1", 7, 2023⟩, by simp, rfl, rfl⟩

/-- C2: the claim says saving a `Formation` whose `department_id` references
no existing department fails with an integrity error.  The code never turns
foreign-key enforcement on (`PRAGMA foreign_keys = ON` is absent), so the
INSERT succeeds: on the empty store — which contains no department at all —
saving a formation with `department_id = 1` returns `ok` and stores a row
with a dangling reference.  This theorem evaluates the code at that failing
input. -/
theorem formation_save_dangling_department_succeeds :
    Formation.save { name := "X", duration_years := 3, department_id := 1,
                     formation_id := none } DB.empty
      = Except.ok ({ name := "X", duration_years := 3, department_id := 1,
                     formation_id := some 1 },
          { DB.empty with formations := [⟨1, "X", 3, 1⟩], nextFormId := 2 })
    ∧ (DB.empty.departments.all (fun r => !(r.department_id == 1))) = true := by
  exact ⟨rfl, rfl⟩

/-- C3: saving a `Student` whose caller-supplied id already exists updates
that row's names in place: the save succeeds, `get_all` has the same length
before and after, the updated row is present, every row with a different id
is untouched, and the other four tables are unchanged. -/
theorem student_save_update_in_place (db : DB) (sid fn ln : String)
    (hex : ∃ r ∈ db.students, r.student_id = sid) :
    ∃ db2,
      Student.save { student_id := sid, first_name := fn, last_name := ln } db
        = Except.ok ({ student_id := sid, first_name := fn, last_name := ln }, db2)
      ∧ (Student.get_all db2).length = (Student.get_all db).length
      ∧ (⟨sid, fn, ln⟩ : StudentRow) ∈ db2.students
      ∧ (∀ r ∈ db.students, r.student_id ≠ sid → r ∈ db2.students)
      ∧ db2.departments = db.departments ∧ db2.formations = db.formations
      ∧ db2.subjects = db.subjects ∧ db2.enrollments = db.enrollments := by
  obtain ⟨r, hr, hrs⟩ := hex
  have hany : db.students.any (fun q => q.student_id == sid) = true :=
    List.any_eq_true.mpr ⟨r, hr, by simp [hrs]⟩
  let updated := db.students.map
    (fun q => if q.student_id == sid then { q with first_name := fn, last_name := ln } else q)
  refine ⟨{ db with students := updated }, ?_, ?_, ?_, ?_, rfl, rfl, rfl, rfl⟩
  · simp [Student.save, hany, updated]
  · simp [Student.get_all, updated]
  · refine List.mem_map.mpr ⟨r, hr, ?_⟩
    simp [hrs]
  · intro q hq hne
    refine List.mem_map.mpr ⟨q, hq, ?_⟩
    simp [hne]

/-- C3 witness: a concrete store holding student "S7"; the update-save keeps
the row count at one. -/
theorem student_save_update_in_place_witness :
    ∃ db2,
      Student.save { student_id := "S7", first_name := "Ann", last_name := "Lee" }
          { DB.empty with students := [⟨"S7", "An", "Le"⟩] }
        = Except.ok ({ student_id := "S7", first_name := "Ann", last_name := "Lee" }, db2)
      ∧ (Student.get_all db2).length
          = (Student.get_all { DB.empty with students := [⟨"S7", "An", "Le"⟩] }).length
      ∧ (⟨"S7", "Ann", "Lee"⟩ : StudentRow) ∈ db2.students
      ∧ (∀ r ∈ ({ DB.empty with students := [⟨"S7", "An", "Le"⟩] } : DB).students,
          r.student_id ≠ "S7" → r ∈ db2.students)
      ∧ db2.departments = ({ DB.empty with students := [⟨"S7", "An", "Le"⟩] } : DB).departments
      ∧ db2.formations = ({ DB.empty with students := [⟨"S7", "An", "Le"⟩] } : DB).formations
      ∧ db2.subjects = ({ DB.empty with students := [⟨"S7", "An", "Le"⟩] } : DB).subjects
      ∧ db2.enrollments = ({ DB.empty with students := [⟨"S7", "An", "Le"⟩] } : DB).enrollments :=
  student_save_update_in_place _ "S7" "Ann" "Lee" ⟨⟨"S7", "An", "Le"⟩, by simp, rfl⟩

/-- C4: saving a new `Department` (department_id unset) whose name is held by
an existing department fails with the domain ValueError naming the name;
saving one whose name no department holds succeeds and returns the record
with `department_id` populated (the store-assigned id, non-None). -/
theorem department_save_unique_name (db : DB) (nm : String) :
    ((∃ r ∈ db.departments, r.name = nm) →
        Department.save { name := nm, department_id := none } db
          = Except.error ("Department with name \x27" ++ nm ++ "\x27 already exists."))
    ∧ ((∀ r ∈ db.departments, r.name ≠ nm) →
        Department.save { name := nm, department_id := none } db
          = Except.ok ({ name := nm, department_id := some db.nextDeptId },
              { db with departments := db.departments ++ [⟨db.nextDeptId, nm⟩],
                        nextDeptId := db.nextDeptId + 1 })) := by
  constructor
  · rintro ⟨r, hr, hrn⟩
    have hany : db.departments.any (fun q => q.name == nm) = true :=
      List.any_eq_true.mpr ⟨r, hr, by simp [hrn]⟩
    simp [Department.save, hany]
  · intro h
    have hany : db.departments.any (fun q => q.name == nm) = false := by
      refine List.any_eq_false.mpr ?_
      intro q hq
      simp [h q hq]
    simp [Department.save, hany]

/-- C4 witness: on a store holding department "Math", saving another "Math"
errors and saving "Physics" succeeds with id 2 assigned. -/
theorem department_save_unique_name_witness :
    Department.save { name := "Math", department_id := none }
        { DB.empty with departments := [⟨1, "Math"⟩], nextDeptId := 2 }
      = Except.error ("Department with name \x27" ++ "Math" ++ "\x27 already exists.")
    ∧ Department.save { name := "Physics", department_id := none }
        { DB.empty with departments := [⟨1, "Math"⟩], nextDeptId := 2 }
      = Except.ok ({ name := "Physics", department_id := some 2 },
          { ({ DB.empty with departments := [⟨1, "Math"⟩], nextDeptId := 2 } : DB) with
              departments := [⟨1, "Math"⟩] ++ [⟨2, "Physics"⟩], nextDeptId := 3 }) := by
  constructor
  · exact (department_save_unique_name _ "Math").1 ⟨⟨1, "Math"⟩, by simp, rfl⟩
  · exact (department_save_unique_name _ "Physics").2 (by decide)

/-- C5: deleting a non-existent identity, for each of the five entities,
completes without error and leaves the whole store unchanged. -/
theorem delete_missing_identity_noop (db : DB) (did fid sjid eid : Nat) (sid : String)
    (h1 : ∀ r ∈ db.departments, r.department_id ≠ did)
    (h2 : ∀ r ∈ db.formations, r.formation_id ≠ fid)
    (h3 : ∀ r ∈ db.students, r.student_id ≠ sid)
    (h4 : ∀ r ∈ db.subjects, r.subject_id ≠ sjid)
    (h5 : ∀ r ∈ db.enrollments, r.enrollment_id ≠ eid) :
    Department.delete did db = db ∧ Formation.delete fid db = db
    ∧ Student.delete sid db = db ∧ Subject.delete sjid db = db
    ∧ Enrollment.delete eid db = db := by
  refine ⟨?_, ?_, ?_, ?_, ?_⟩
  · have hf : db.departments.filter (fun r => !(r.department_id == did)) = db.departments :=
      List.filter_eq_self.mpr (fun a ha => by simpa using h1 a ha)
    simp [Department.delete, hf]
  · have hf : db.formations.filter (fun r => !(r.formation_id == fid)) = db.formations :=
      List.filter_eq_self.mpr (fun a ha => by simpa using h2 a ha)
    simp [Formation.delete, hf]
  · have hf : db.students.filter (fun r => !(r.student_id == sid)) = db.students :=
      List.filter_eq_self.mpr (fun a ha => by simpa using h3 a ha)
    simp [Student.delete, hf]
  · have hf : db.subjects.filter (fun r => !(r.subject_id == sjid)) = db.subjects :=
      List.filter_eq_self.mpr (fun a ha => by simpa using h4 a ha)
    simp [Subject.delete, hf]
  · have hf : db.enrollments.filter (fun r => !(r.enrollment_id == eid)) = db.enrollments :=
      List.filter_eq_self.mpr (fun a ha => by simpa using h5 a ha)
    simp [Enrollment.delete, hf]

/-- C5 witness: on a one-row-per-table store, deleting absent identities
changes nothing. -/
theorem delete_missing_identity_noop_witness :
    Department.delete 9 dbW = dbW ∧ Formation.delete 9 dbW = dbW
    ∧ Student.delete "S9" dbW = dbW ∧ Subject.delete 9 dbW = dbW
    ∧ Enrollment.delete 9 dbW = dbW :=
  delete_missing_identity_noop dbW 9 9 9 9 "S9" (by decide) (by decide) (by decide)
    (by decide) (by decide)

/-- C6: an update-save of an existing enrollment (enrollment_id assigned)
writes at most the `enrollment_year` column: the save succeeds, the row count
is unchanged, rows with a different id are untouched, the targeted row keeps
its stored `student_id` and `formation_id` and only its year becomes the new
value, and every resulting row carries a (student_id, formation_id) pair that
was already stored — even though the in-memory record carries possibly
different identity fields s2, f2. -/
theorem enrollment_update_save_frame (db : DB) (e : EnrollRow) (_he : e ∈ db.enrollments)
    (s2 : String) (f2 : Nat) (y2 : Int) :
    ∃ db2,
      Enrollment.save { student_id := s2, formation_id := f2, enrollment_year := y2,
                        enrollment_id := some e.enrollment_id } db
        = Except.ok ({ student_id := s2, formation_id := f2, enrollment_year := y2,
                       enrollment_id := some e.enrollment_id }, db2)
      ∧ db2.enrollments.length = db.enrollments.length
      ∧ (∀ r ∈ db.enrollments, r.enrollment_id ≠ e.enrollment_id → r ∈ db2.enrollments)
      ∧ (∀ r ∈ db.enrollments, r.enrollment_id = e.enrollment_id →
          ({ r with enrollment_year := y2 } : EnrollRow) ∈ db2.enrollments)
      ∧ (∀ r ∈ db2.enrollments, ∃ r0 ∈ db.enrollments,
          r.student_id = r0.student_id ∧ r.formation_id = r0.formation_id)
      ∧ db2.departments = db.departments ∧ db2.formations = db.formations
      ∧ db2.students = db.students ∧ db2.subjects = db.subjects := by
  let updated := db.enrollments.map
    (fun r => if r.enrollment_id == e.enrollment_id then { r with enrollment_year := y2 } else r)
  refine ⟨{ db with enrollments := updated }, ?_, ?_, ?_, ?_, ?_, rfl, rfl, rfl, rfl⟩
  · simp [Enrollment.save, updated]
  · simp [updated]
  · intro r hr hne
    refine List.mem_map.mpr ⟨r, hr, ?_⟩
    simp [hne]
  · intro r hr heq
    refine List.mem_map.mpr ⟨r, hr, ?_⟩
    simp [heq]
  · intro r hr
    obtain ⟨r0, hr0, hmap⟩ := List.mem_map.mp hr
    refine ⟨r0, hr0, ?_⟩
    by_cases hc : r0.enrollment_id = e.enrollment_id
    · simp [hc] at hmap
      simp [← hmap]
    · simp [hc] at hmap
      simp [← hmap]

/-- C6 witness: on the one-enrollment store, an update-save carrying a
different in-memory pair ("S2", 5) still leaves the stored pair ("S1", 1). -/
theorem enrollment_update_save_frame_witness :
    ∃ db2,
      Enrollment.save { student_id := "S2", formation_id := 5, enrollment_year := 2030,
                        enrollment_id := some (1 : Nat) } dbW
        = Except.ok ({ student_id := "S2", formation_id := 5, enrollment_year := 2030,
                       enrollment_id := some (1 : Nat) }, db2)
      ∧ db2.enrollments.length = dbW.enrollments.length
      ∧ (∀ r ∈ dbW.enrollments, r.enrollment_id ≠ 1 → r ∈ db2.enrollments)
      ∧ (∀ r ∈ dbW.enrollments, r.enrollment_id = 1 →
          ({ r with enrollment_year := 2030 } : EnrollRow) ∈ db2.enrollments)
      ∧ (∀ r ∈ db2.enrollments, ∃ r0 ∈ dbW.enrollments,
          r.student_id = r0.student_id ∧ r.formation_id = r0.formation_id)
      ∧ db2.departments = dbW.departments ∧ db2.formations = dbW.formations
      ∧ db2.students = dbW.students ∧ db2.subjects = dbW.subjects :=
  enrollment_update_save_frame dbW ⟨1, "S1", 1, 2023⟩ (by decide) "S2" 5 2030

/-- C7: the end-to-end scenario.  From the empty store, saving Department
"Computer Science", then Formation "Software Engineering" (duration 4) under
its assigned id, then Student "S1001"/"John"/"Doe", then
Enrollment("S1001", that formation's id, 2023), makes
`get_by_student_and_formation "S1001"` at that formation id return exactly
the saved enrollment, whose `enrollment_year` is 2023. -/
theorem scenario_enrollment_roundtrip
    (d : Department) (db1 : DB) (did : Nat) (f : Formation) (db2 : DB) (fid : Nat)
    (st : Student) (db3 : DB) (e : Enrollment) (db4 : DB)
    (h1 : Department.save { name := "Computer Science", department_id := none } DB.empty
          = Except.ok (d, db1))
    (hd : d.department_id = some did)
    (h2 : Formation.save { name := "Software Engineering", duration_years := 4,
                           department_id := did, formation_id := none } db1
          = Except.ok (f, db2))
    (hf : f.formation_id = some fid)
    (h3 : Student.save { student_id := "S1001", first_name := "John", last_name := "Doe" } db2
          = Except.ok (st, db3))
    (h4 : Enrollment.save { student_id := "S1001", formation_id := fid,
                            enrollment_year := 2023, enrollment_id := none } db3
          = Except.ok (e, db4)) :
    Enrollment.get_by_student_and_formation "S1001" fid db4 = some e
      ∧ e.enrollment_year = 2023 := by
  simp [Department.save, DB.empty] at h1
  obtain ⟨hdv, hdb1⟩ := h1
  subst hdb1
  rw [← hdv] at hd
  simp at hd
  subst hd
  simp [Formation.save] at h2
  obtain ⟨hfv, hdb2⟩ := h2
  subst hdb2
  rw [← hfv] at hf
  simp at hf
  subst hf
  simp [Student.save] at h3
  obtain ⟨hsv, hdb3⟩ := h3
  subst hdb3
  simp [Enrollment.save] at h4
  obtain ⟨hev, hdb4⟩ := h4
  subst hdb4
  subst hev
  simp [Enrollment.get_by_student_and_formation]

/-- C7 witness: the concrete run of the scenario, with the stores after each
step evaluated. -/
theorem scenario_enrollment_roundtrip_witness :
    Enrollment.get_by_student_and_formation "S1001" 1 dbS4
      = some { student_id := "S1001", formation_id := 1, enrollment_year := 2023,
               enrollment_id := some 1 }
    ∧ ({ student_id := "S1001", formation_id := 1, enrollment_year := 2023,
         enrollment_id := some 1 } : Enrollment).enrollment_year = 2023 :=
  scenario_enrollment_roundtrip
    { name := "Computer Science", department_id := some 1 } dbS1 1
    { name := "Software Engineering", duration_years := 4, department_id := 1,
      formation_id := some 1 } dbS2 1
    { student_id := "S1001", first_name := "John", last_name := "Doe" } dbS3
    { student_id := "S1001", formation_id := 1, enrollment_year := 2023,
      enrollment_id := some 1 } dbS4
    rfl rfl rfl rfl rfl rfl

/-- C8: `initialize_database` is idempotent.  When the data directory and the
tables it creates already exist it is a no-op on the schema and on the stored
rows; unconditionally, running it twice yields the same state as running it
once, it creates the containing data directory when absent, and it leaves
every stored row untouched.  (It returns `None` in Python, modelled by the
state-only result type.) -/
theorem initialize_database_idempotent (s : SchemaState)
    (h : s.dataDirExists = true ∧ s.departmentsTable = true ∧ s.formationsTable = true
      ∧ s.studentsTable = true ∧ s.subjectsTable = true ∧ s.enrollmentsTable = true
      ∧ s.gradesTable = true) :
    initialize_database s = s
    ∧ (∀ t : SchemaState,
        initialize_database (initialize_database t) = initialize_database t
        ∧ (initialize_database t).dataDirExists = true
        ∧ (initialize_database t).rows = t.rows) := by
  obtain ⟨h1, h2, h3, h4, h5, h6, h7⟩ := h
  refine ⟨?_, fun t => ⟨rfl, rfl, rfl⟩⟩
  cases s
  simp_all [initialize_database]

/-- C8 witness: a fully initialized state with one department row. -/
theorem initialize_database_idempotent_witness :
    initialize_database
        { dataDirExists := true, departmentsTable := true, formationsTable := true,
          studentsTable := true, subjectsTable := true, enrollmentsTable := true,
          gradesTable := true, rows := dbW }
      = { dataDirExists := true, departmentsTable := true, formationsTable := true,
          studentsTable := true, subjectsTable := true, enrollmentsTable := true,
          gradesTable := true, rows := dbW }
    ∧ (∀ t : SchemaState,
        initialize_database (initialize_database t) = initialize_database t
        ∧ (initialize_database t).dataDirExists = true
        ∧ (initialize_database t).rows = t.rows) :=
  initialize_database_idempotent _ ⟨rfl, rfl, rfl, rfl, rfl, rfl, rfl⟩

/-- C10: for the four entities with store-assigned identities, saving a
record whose identity is set but matches no existing row completes without
error, returns the record unchanged, and leaves the store entirely unchanged
(the UPDATE matches zero rows; no insert happens). -/
theorem save_missing_identity_noop (db : DB) (did fid sjid eid : Nat)
    (h1 : ∀ r ∈ db.departments, r.department_id ≠ did)
    (h2 : ∀ r ∈ db.formations, r.formation_id ≠ fid)
    (h3 : ∀ r ∈ db.subjects, r.subject_id ≠ sjid)
    (h4 : ∀ r ∈ db.enrollments, r.enrollment_id ≠ eid)
    (nm : String) (dur cr yr y : Int) (dref fref : Nat) (sid : String) :
    Department.save { name := nm, department_id := some did } db
      = Except.ok ({ name := nm, department_id := some did }, db)
    ∧ Formation.save { name := nm, duration_years := dur, department_id := dref,
                       formation_id := some fid } db
      = Except.ok ({ name := nm, duration_years := dur, department_id := dref,
                     formation_id := some fid }, db)
    ∧ Subject.save { name := nm, credits := cr, year := yr, formation_id := fref,
                     subject_id := some sjid } db
      = Except.ok ({ name := nm, credits := cr, year := yr, formation_id := fref,
                     subject_id := some sjid }, db)
    ∧ Enrollment.save { student_id := sid, formation_id := fref, enrollment_year := y,
                        enrollment_id := some eid } db
      = Except.ok ({ student_id := sid, formation_id := fref, enrollment_year := y,
                     enrollment_id := some eid }, db) := by
  refine ⟨?_, ?_, ?_, ?_⟩
  · have hany : db.departments.any (fun q => q.department_id == did) = false := by
      refine List.any_eq_false.mpr ?_
      intro q hq
      simp [h1 q hq]
    have hmap : db.departments.map
        (fun r => if r.department_id = did then { r with name := nm } else r)
        = db.departments :=
      map_fix_eq_self _ _ (fun a ha => by simp [h1 a ha])
    simp [Department.save, hany, hmap]
  · have hmap : db.formations.map
        (fun r => if r.formation_id = fid then
          { r with name := nm, duration_years := dur, department_id := dref } else r)
        = db.formations :=
      map_fix_eq_self _ _ (fun a ha => by simp [h2 a ha])
    simp [Formation.save, hmap]
  · have hmap : db.subjects.map
        (fun r => if r.subject_id = sjid then
          { r with name := nm, credits := cr, year := yr, formation_id := fref } else r)
        = db.subjects :=
      map_fix_eq_self _ _ (fun a ha => by simp [h3 a ha])
    simp [Subject.save, hmap]
  · have hmap : db.enrollments.map
        (fun r => if r.enrollment_id = eid then { r with enrollment_year := y } else r)
        = db.enrollments :=
      map_fix_eq_self _ _ (fun a ha => by simp [h4 a ha])
    simp [Enrollment.save, hmap]

/-- C10 witness: on the one-row-per-table store, saving records carrying
absent identity 9 changes nothing. -/
theorem save_missing_identity_noop_witness :
    Department.save { name := "Ghost", department_id := some (9 : Nat) } dbW
      = Except.ok ({ name := "Ghost", department_id := some (9 : Nat) }, dbW)
    ∧ Formation.save { name := "Ghost", duration_years := 2, department_id := 1,
                       formation_id := some (9 : Nat) } dbW
      = Except.ok ({ name := "Ghost", duration_years := 2, department_id := 1,
                     formation_id := some (9 : Nat) }, dbW)
    ∧ Subject.save { name := "Ghost", credits := 1, year := 1, formation_id := 1,
                     subject_id := some (9 : Nat) } dbW
      = Except.ok ({ name := "Ghost", credits := 1, year := 1, formation_id := 1,
                     subject_id := some (9 : Nat) }, dbW)
    ∧ Enrollment.save { student_id := "S1", formation_id := 1, enrollment_year := 2024,
                        enrollment_id := some (9 : Nat) } dbW
      = Except.ok ({ student_id := "S1", formation_id := 1, enrollment_year := 2024,
                     enrollment_id := some (9 : Nat) }, dbW) :=
  save_missing_identity_noop dbW 9 9 9 9 (by decide) (by decide) (by decide) (by decide)
    "Ghost" 2 1 1 2024 1 1 "S1"

end SMS
